import Mathlib


/-!
Shallow Lean embedding of the valuation & scoring engine of the
stock-performance-modeling repository (src/financial_analyzer.py).

Python dictionaries of numeric values are modelled as association lists
`List (String × ℚ)` (lookup = first match, as for unique-key dicts);
numeric values are modelled as exact rationals `ℚ`; a possibly-missing
dictionary key is an `Option` field, with `Option.getD` playing the role
of Python's `dict.get(key, default)`.  Fallible code (Python `raise`,
including `ZeroDivisionError` on an unguarded division) is modelled in
`Except`.  The human-readable "factor" strings accumulated by the scorer
are presentational only and are not modelled; every numeric output is.
-/

/-- Association-list dictionary with string keys, standing for a Python dict. -/
abbrev Dict (α : Type) : Type := List (String × α)


/-- Lookup of a key in a dict (Python `d[k]` / `k in d`); first match, as
for a unique-key Python dict. -/
def dlook {α : Type} : Dict α → String → Option α
  | [], _ => none
  | (k0, v) :: rest, k => if k0 = k then some v else dlook rest k


/-- Python `d.get(k, default)` for a numeric dict. -/
def dget (d : Dict ℚ) (k : String) (default : ℚ) : ℚ :=
  (dlook d k).getD default


/-- One yearly financial record (`company_data["financials"][i]`); every field
is optional, matching the code's pervasive `.get(key, default)` access. -/
structure YearRecord where
  year : Option ℤ := none
  stock_price : Option ℚ := none
  shares_outstanding : Option ℚ := none
  dividend_per_share : Option ℚ := none
  revenue : Option ℚ := none
  netIncome : Option ℚ := none
  ebitda : Option ℚ := none
  totalAssets : Option ℚ := none
  totalEquity : Option ℚ := none
  totalDebt : Option ℚ := none
  cashFlow : Option ℚ := none
deriving DecidableEq, Inhabited


/-- Analyst estimates (`company_data.get("estimates", {})`); an absent
estimates dict behaves exactly like one with every field absent. -/
structure Estimates where
  next_year_eps : Option ℚ := none
  long_term_growth_rate : Option ℚ := none
  target_price : Option ℚ := none
deriving DecidableEq, Inhabited


/-- One benchmark series entry; `ret` stands for the Python key `"return"`. -/
structure MarketEntry where
  year : Option ℤ := none
  ret : Option ℚ := none
deriving DecidableEq, Inhabited


/-- Python truthiness of a market-index entry dict: non-empty iff some
modelled key is present (`if market_return:` in `calculate_alpha`). -/
def MarketEntry.truthy (m : MarketEntry) : Bool :=
  m.year.isSome || m.ret.isSome


/-- Benchmark data (`benchmark_data`). -/
structure BenchmarkData where
  market_index : List MarketEntry := []
  risk_free_rate : Option ℚ := none
  market_risk_premium : Option ℚ := none
deriving DecidableEq, Inhabited


/-- Company data (`company_data`): the financials sequence (most recent
first; a missing or empty `"financials"` key is the empty list, which the
code treats as data unavailable) and the analyst estimates. -/
structure CompanyData where
  financials : List YearRecord := []
  estimates : Estimates := {}
deriving DecidableEq, Inhabited


/-- A peer company record; only `current_metrics` is consumed by the engine. -/
structure PeerRecord where
  current_metrics : Dict ℚ := []
deriving DecidableEq, Inhabited


/-- Python truthiness of a yearly record used for
`if previous_year and ...` in `calculate_financial_metrics`: an empty dict
(no modelled key present) is falsy. -/
def YearRecord.truthy (y : YearRecord) : Bool :=
  y.year.isSome || y.stock_price.isSome || y.shares_outstanding.isSome ||
  y.dividend_per_share.isSome || y.revenue.isSome || y.netIncome.isSome ||
  y.ebitda.isSome || y.totalAssets.isSome || y.totalEquity.isSome ||
  y.totalDebt.isSome || y.cashFlow.isSome


/-- Errors the engine can raise: `ValueError` on empty financials, and
Python's `ZeroDivisionError` on an unguarded division. -/
inductive AnalysisError where
  | noFinancials
  | divisionByZero
deriving DecidableEq, Inhabited


/-! ## compare_to_peers (src/financial_analyzer.py lines 197-256) -/

/-- The fixed snake→camel metric-name table of `compare_to_peers`. -/
def snake_to_camel : Dict String :=
  [("pe_ratio", "peRatio"),
   ("price_to_sales", "priceToSales"),
   ("price_to_book", "priceToBook"),
   ("ev_to_ebitda", "evToEbitda"),
   ("debt_to_equity", "debtToEquity"),
   ("return_on_equity", "returnOnEquity"),
   ("return_on_assets", "returnOnAssets"),
   ("net_margin", "netMargin"),
   ("revenue_growth", "revenueGrowth")]


/-- `{v: k for k, v in snake_to_camel.items()}`. -/
def camel_to_snake : Dict String :=
  snake_to_camel.map (fun p => (p.2, p.1))


/-- `snake_to_camel.values()`. -/
def camelNames : List String :=
  snake_to_camel.map Prod.snd


/-- The company-metric key used for a peer metric key (lines 234-239):
`company_metric = metric`; if `metric in snake_to_camel.values()` take the
inverse image, elif `metric in snake_to_camel` take the forward image. -/
def companyMetricKey (metric : String) : String :=
  if camelNames.contains metric then
    ((dlook camel_to_snake metric).getD metric)
  else if (dlook snake_to_camel metric).isSome then
    ((dlook snake_to_camel metric).getD metric)
  else
    metric


/-- The ascending-sorted list of all peers' values for a metric, defaulting
absent values to 0 (line 209). -/
def sortedPeerValues (peers : List PeerRecord) (metric : String) : List ℚ :=
  List.insertionSort (· ≤ ·)
    (peers.map (fun peer => dget peer.current_metrics metric 0))


/-- The peer median of a (sorted, non-empty) value list (lines 214-219):
`middle = len // 2`; even length > 1 averages the two middle elements,
otherwise take the middle element. -/
def peerMedian (values : List ℚ) : ℚ :=
  let middle := values.length / 2
  if values.length % 2 == 0 && values.length > 1 then
    (values.getD (middle - 1) 0 + values.getD middle 0) / 2
  else
    values.getD middle 0


/-- One entry of the peer comparison mapping. -/
structure Comparison where
  company_value : ℚ
  peer_median : ℚ
  percent_difference : ℚ
deriving DecidableEq, Inhabited


/-- The comparison record built for one peer metric key (lines 209-254). -/
def compareEntry (peers : List PeerRecord) (company_metrics : Dict ℚ)
    (metric : String) : Option (String × Comparison) :=
  let values := sortedPeerValues peers metric
  if values.isEmpty then
    none
  else
    let median := peerMedian values
    let company_value := dget company_metrics (companyMetricKey metric) 0
    let percent_difference :=
      if median ≠ 0 then ((company_value - median) / median) * 100 else 0
    some (metric, ⟨company_value, median, percent_difference⟩)


/-- `FinancialAnalyzer.compare_to_peers` (lines 197-256): empty comparison
for an empty peer list; otherwise one entry per key of the first peer's
`current_metrics`. -/
def compare_to_peers (peers : List PeerRecord) (company_metrics : Dict ℚ) :
    Dict Comparison :=
  match peers with
  | [] => []
  | first :: _ =>
    (first.current_metrics.map Prod.fst).filterMap
      (fun metric => compareEntry peers company_metrics metric)


/-! ## calculate_stock_returns (src/financial_analyzer.py lines 141-176) -/

/-- One yearly stock-return entry. -/
structure ReturnEntry where
  year : Option ℤ
  price_return : ℚ
  dividend_return : ℚ
  total_return : ℚ
deriving DecidableEq, Inhabited


/-- The return entry for one consecutive pair of years (lines 154-174).
Both `price_return` and `dividend_return` are guarded by the same check
`previous_year.get("stock_price", 0) > 0`. -/
def stockReturn (current_year previous_year : YearRecord) : ReturnEntry :=
  let price_return :=
    if previous_year.stock_price.getD 0 > 0 then
      (current_year.stock_price.getD 0 - previous_year.stock_price.getD 0) /
        previous_year.stock_price.getD 1
    else 0
  let dividend_return :=
    if previous_year.stock_price.getD 0 > 0 then
      current_year.dividend_per_share.getD 0 / previous_year.stock_price.getD 1
    else 0
  ⟨current_year.year, price_return, dividend_return, price_return + dividend_return⟩


/-- `FinancialAnalyzer.calculate_stock_returns` (lines 141-176): empty if
fewer than two years, otherwise one entry per consecutive pair
`(financials[i], financials[i+1])`. -/
def calculate_stock_returns (financials : List YearRecord) : List ReturnEntry :=
  if financials.length < 2 then []
  else (financials.zip financials.tail).map (fun p => stockReturn p.1 p.2)


/-! ## calculate_alpha (src/financial_analyzer.py lines 178-195) -/

/-- One alpha entry. -/
structure AlphaEntry where
  year : Option ℤ
  alpha : ℚ
deriving DecidableEq, Inhabited


/-- `FinancialAnalyzer.calculate_alpha` (lines 178-195): for each return
entry, find the first market-index entry of the same year; if there is one
and it is truthy (a non-empty dict), record `total_return - return`. -/
def calculate_alpha (bd : BenchmarkData) (company_returns : List ReturnEntry) :
    List AlphaEntry :=
  company_returns.filterMap (fun cr =>
    match bd.market_index.find? (fun item => item.year == cr.year) with
    | none => none
    | some mr =>
      if mr.truthy then some ⟨cr.year, cr.total_return - mr.ret.getD 0⟩
      else none)


/-! ## assess_underperformance (src/financial_analyzer.py lines 367-470) -/

/-- The valuation metric list of step 2 (line 387). -/
def valuation_metrics : List String :=
  ["peRatio", "priceToSales", "priceToBook", "evToEbitda"]


/-- The profitability metric list of step 3 (line 407). -/
def profitability_metrics : List String :=
  ["returnOnEquity", "returnOnAssets", "netMargin"]


/-- The growth metric list of step 4 (line 420). -/
def growth_metrics : List String :=
  ["revenueGrowth"]


/-- Step-2 score update for one valuation metric (lines 388-404):
below -15 percent subtracts 1, above +15 percent adds 1. -/
def valuationStep (peer_comparison : Dict Comparison) (score : ℤ)
    (metric : String) : ℤ :=
  match dlook peer_comparison metric with
  | none => score
  | some comparison =>
    if comparison.percent_difference < -15 then score - 1
    else if comparison.percent_difference > 15 then score + 1
    else score


/-- Score update shared by steps 3 and 4 (lines 408-430): a profitability
or growth metric below -15 percent of the peer median adds 1. -/
def belowMedianStep (peer_comparison : Dict Comparison) (score : ℤ)
    (metric : String) : ℤ :=
  match dlook peer_comparison metric with
  | none => score
  | some comparison =>
    if comparison.percent_difference < -15 then score + 1
    else score


/-- The integer score accumulated by
`FinancialAnalyzer.assess_underperformance` (lines 367-453).
`dcf_upside` is `some u` when `self.dcf_valuation` is a non-empty dict
containing the key `"upside"` with value `u`; `price_to_target` is `some p`
when `"current_price_to_target"` is a key of `self.company_metrics`. -/
def assess_score (alpha_analysis : List AlphaEntry)
    (peer_comparison : Dict Comparison) (dcf_upside : Option ℚ)
    (price_to_target : Option ℚ) : ℤ :=
  let s1 : ℤ :=
    match alpha_analysis with
    | [] => 0
    | entry :: _ =>
      if entry.alpha < -(5/100) then 2
      else if entry.alpha < 0 then 1
      else 0
  let s2 := valuation_metrics.foldl (valuationStep peer_comparison) s1
  let s3 := profitability_metrics.foldl (belowMedianStep peer_comparison) s2
  let s4 := growth_metrics.foldl (belowMedianStep peer_comparison) s3
  let s5 :=
    match dcf_upside with
    | none => s4
    | some upside =>
      if upside > 15/100 then s4 - 2
      else if upside < -(15/100) then s4 + 2
      else s4
  match price_to_target with
  | none => s5
  | some p => if p < 8/10 then s5 - 1 else s5


/-- The categorical assessment derived from the score (lines 455-464). -/
def assessmentOf (score : ℤ) : String :=
  if score ≥ 4 then "Significantly underperforming"
  else if score ≥ 2 then "Moderately underperforming"
  else if score ≥ 0 then "Slightly underperforming"
  else if score ≥ -2 then "Performing in line with expectations"
  else "Outperforming expectations"


/-- The result of `assess_underperformance` (the textual factor list is
presentational and not modelled). -/
structure Assessment where
  assessment : String
  score : ℤ
deriving DecidableEq, Inhabited


/-- `FinancialAnalyzer.assess_underperformance` (lines 367-470). -/
def assess_underperformance (alpha_analysis : List AlphaEntry)
    (peer_comparison : Dict Comparison) (dcf_upside : Option ℚ)
    (price_to_target : Option ℚ) : Assessment :=
  let score := assess_score alpha_analysis peer_comparison dcf_upside price_to_target
  ⟨assessmentOf score, score⟩


/-! ## perform_dcf (src/financial_analyzer.py lines 258-365) -/

/-- The WACC computed by `perform_dcf` (lines 266-286): capital-structure
weights from the current year, CAPM cost of equity with beta fixed at 1.2
and benchmark defaults 0.035 / 0.055, after-tax cost of debt fixed at
0.05 x (1 - 0.25). -/
def waccOf (current_year : YearRecord) (bd : BenchmarkData) : ℚ :=
  let equity_value := current_year.stock_price.getD 0 * current_year.shares_outstanding.getD 0
  let total_capital := equity_value + current_year.totalDebt.getD 0
  let equity_weight := if total_capital > 0 then equity_value / total_capital else 1
  let debt_weight := if total_capital > 0 then 1 - equity_value / total_capital else 0
  let beta : ℚ := 12/10
  let cost_of_equity := bd.risk_free_rate.getD (35/1000) + beta * bd.market_risk_premium.getD (55/1000)
  let tax_rate : ℚ := 25/100
  let cost_of_debt := (5/100) * (1 - tax_rate)
  equity_weight * cost_of_equity + debt_weight * cost_of_debt


/-- The base-cash-flow selection chain of `perform_dcf` (lines 290-298):
operating cash flow; if not positive, net income x 1.1; if still not
positive and revenue is positive, revenue x 0.1. -/
def selectedBase (current_year : YearRecord) : ℚ :=
  let base0 := current_year.cashFlow.getD 0
  let base1 := if base0 ≤ 0 then current_year.netIncome.getD 0 * (11/10) else base0
  if base1 ≤ 0 ∧ current_year.revenue.getD 0 > 0 then current_year.revenue.getD 0 * (1/10)
  else base1


/-- The 5-year projection loop of `perform_dcf` (lines 314-320): for
`year = 1..fuel`, multiply the running cash flow by
`1 + g * (1 - (year - 1) * 0.1)` and append it. -/
def projectFrom (g : ℚ) : ℚ → ℕ → ℕ → List ℚ
  | _, _, 0 => []
  | cash_flow, year, fuel + 1 =>
    let growth_rate := g * (1 - ((year : ℚ) - 1) * (1/10))
    let next := cash_flow * (1 + growth_rate)
    next :: projectFrom g next (year + 1) fuel


/-- The projected cash flows of `perform_dcf` for a base cash flow and a
long-term growth rate. -/
def projectCashFlows (base g : ℚ) : List ℚ :=
  projectFrom g base 1 5


/-- The output record of `perform_dcf` (lines 302-312 and 355-365). -/
structure DCFResult where
  wacc : ℚ
  projected_cash_flows : List ℚ
  present_value_cfs : List ℚ
  terminal_value : ℚ
  present_value_tv : ℚ
  enterprise_value : ℚ
  equity_value : ℚ
  implied_share_price : ℚ
  upside : ℚ
deriving DecidableEq, Inhabited


/-- `FinancialAnalyzer.perform_dcf` (lines 258-365).  Raises `ValueError`
on empty financials; returns the zeroed record (with the computed WACC)
when no positive base cash flow exists; raises `ZeroDivisionError` in the
present-value division when `(1 + WACC) ** k` is zero (Python divides
floats and raises); otherwise discounts the projection and the Gordon
terminal value (3% terminal growth, 20x fallback when WACC <= 3%). -/
def perform_dcf (cd : CompanyData) (bd : BenchmarkData) :
    Except AnalysisError DCFResult :=
  match cd.financials with
  | [] => .error .noFinancials
  | current_year :: _ =>
    let wacc := waccOf current_year bd
    let base_cash_flow := selectedBase current_year
    if base_cash_flow ≤ 0 then
      .ok ⟨wacc, [], [], 0, 0, 0, 0, 0, 0⟩
    else
      let g := cd.estimates.long_term_growth_rate.getD (1/10)
      let projected_cash_flows := projectCashFlows base_cash_flow g
      if 1 + wacc = 0 then
        .error .divisionByZero
      else
        let present_value_cfs :=
          projected_cash_flows.enum.map (fun p => p.2 / (1 + wacc) ^ (p.1 + 1))
        let terminal_growth_rate : ℚ := 3/100
        let terminal_value :=
          if wacc > terminal_growth_rate then
            (projected_cash_flows.getD 4 0 * (1 + terminal_growth_rate)) /
              (wacc - terminal_growth_rate)
          else
            projected_cash_flows.getD 4 0 * 20
        let present_value_tv := terminal_value / (1 + wacc) ^ 5
        let enterprise_value := present_value_cfs.sum + present_value_tv
        let equity_value := enterprise_value - current_year.totalDebt.getD 0
        let implied_share_price :=
          if current_year.shares_outstanding.getD 0 > 0 then
            equity_value / current_year.shares_outstanding.getD 1
          else 0
        let upside :=
          if current_year.stock_price.getD 0 > 0 then
            (implied_share_price - current_year.stock_price.getD 0) /
              current_year.stock_price.getD 1
          else 0
        .ok ⟨wacc, projected_cash_flows, present_value_cfs, terminal_value,
          present_value_tv, enterprise_value, equity_value, implied_share_price,
          upside⟩


/-! ## calculate_financial_metrics (src/financial_analyzer.py lines 35-139) -/

/-- `FinancialAnalyzer.calculate_financial_metrics` (lines 35-139): raises
`ValueError` on an empty financials sequence, otherwise builds the metrics
dict in source order.  Every division is guarded by the code's own
positivity (or non-zero) check, mirrored here verbatim; the code's
denominator default of 1 (`.get(key, 1)`) is also mirrored. -/
def calculate_financial_metrics (cd : CompanyData) :
    Except AnalysisError (Dict ℚ) :=
  match cd.financials with
  | [] => .error .noFinancials
  | current_year :: rest =>
    let previous_year := rest.headD {}
    let net_margin :=
      if current_year.revenue.getD 0 > 0 then
        current_year.netIncome.getD 0 / current_year.revenue.getD 1
      else 0
    let return_on_equity :=
      if current_year.totalEquity.getD 0 > 0 then
        current_year.netIncome.getD 0 / current_year.totalEquity.getD 1
      else 0
    let return_on_assets :=
      if current_year.totalAssets.getD 0 > 0 then
        current_year.netIncome.getD 0 / current_year.totalAssets.getD 1
      else 0
    let revenue_growth :=
      if previous_year.truthy ∧ previous_year.revenue.getD 0 > 0 then
        (current_year.revenue.getD 0 - previous_year.revenue.getD 0) /
          previous_year.revenue.getD 1
      else 0
    let net_income_growth :=
      if previous_year.truthy ∧ previous_year.netIncome.getD 0 > 0 then
        (current_year.netIncome.getD 0 - previous_year.netIncome.getD 0) /
          previous_year.netIncome.getD 1
      else 0
    let peRatioVal :=
      if current_year.shares_outstanding.getD 0 > 0 ∧ current_year.netIncome.getD 0 ≠ 0 then
        current_year.stock_price.getD 0 /
          (current_year.netIncome.getD 1 / current_year.shares_outstanding.getD 1)
      else 0
    let price_to_sales :=
      if current_year.revenue.getD 0 > 0 then
        (current_year.stock_price.getD 0 * current_year.shares_outstanding.getD 0) /
          current_year.revenue.getD 1
      else 0
    let price_to_book :=
      if current_year.totalEquity.getD 0 > 0 then
        (current_year.stock_price.getD 0 * current_year.shares_outstanding.getD 0) /
          current_year.totalEquity.getD 1
      else 0
    let enterprise_value :=
      current_year.stock_price.getD 0 * current_year.shares_outstanding.getD 0 +
        current_year.totalDebt.getD 0
    let ev_to_ebitda :=
      if current_year.ebitda.getD 0 > 0 then
        enterprise_value / current_year.ebitda.getD 1
      else 0
    let debt_to_equity :=
      if current_year.totalEquity.getD 0 > 0 then
        current_year.totalDebt.getD 0 / current_year.totalEquity.getD 1
      else 0
    let current_price_to_target :=
      if cd.estimates.target_price.getD 0 > 0 then
        current_year.stock_price.getD 0 / cd.estimates.target_price.getD 1
      else 1
    let dividend_yield :=
      if current_year.stock_price.getD 0 > 0 then
        current_year.dividend_per_share.getD 0 / current_year.stock_price.getD 1
      else 0
    let payoutRatioVal :=
      if current_year.netIncome.getD 0 > 0 ∧ current_year.shares_outstanding.getD 0 > 0 then
        (current_year.dividend_per_share.getD 0 * current_year.shares_outstanding.getD 0) /
          current_year.netIncome.getD 1
      else 0
    let earnings_per_share :=
      if current_year.shares_outstanding.getD 0 > 0 then
        current_year.netIncome.getD 0 / current_year.shares_outstanding.getD 1
      else 0
    let forward_pe :=
      if cd.estimates.next_year_eps.getD 0 > 0 then
        current_year.stock_price.getD 0 / cd.estimates.next_year_eps.getD 1
      else 0
    let pegRatioVal :=
      if peRatioVal > 0 ∧ cd.estimates.long_term_growth_rate.getD 0 > 0 then
        peRatioVal / (cd.estimates.long_term_growth_rate.getD (1/100) * 100)
      else 0
    .ok [("net_margin", net_margin),
         ("return_on_equity", return_on_equity),
         ("return_on_assets", return_on_assets),
         ("revenue_growth", revenue_growth),
         ("net_income_growth", net_income_growth),
         ("pe_ratio", peRatioVal),
         ("price_to_sales", price_to_sales),
         ("price_to_book", price_to_book),
         ("enterprise_value", enterprise_value),
         ("ev_to_ebitda", ev_to_ebitda),
         ("debt_to_equity", debt_to_equity),
         ("current_price_to_target", current_price_to_target),
         ("dividend_yield", dividend_yield),
         ("payout_ratio", payoutRatioVal),
         ("earnings_per_share", earnings_per_share),
         ("forward_pe", forward_pe),
         ("peg_ratio", pegRatioVal)]


/-! ## run_analysis (src/financial_analyzer.py lines 472-489) -/

/-- The terminal analysis artifact assembled by `run_analysis`. -/
structure AnalysisResult where
  company_metrics : Dict ℚ
  stock_returns : List ReturnEntry
  alpha_analysis : List AlphaEntry
  peer_comparison : Dict Comparison
  dcf_valuation : DCFResult
  underperformance_assessment : Assessment
deriving DecidableEq, Inhabited


/-- `FinancialAnalyzer.run_analysis` (lines 472-489): the full pipeline.
The DCF result dict always contains the key `"upside"`, and the metrics
dict always contains `"current_price_to_target"`, so the scorer receives
both. -/
def run_analysis (cd : CompanyData) (bd : BenchmarkData)
    (peers : List PeerRecord) : Except AnalysisError AnalysisResult := do
  let company_metrics ← calculate_financial_metrics cd
  let stock_returns := calculate_stock_returns cd.financials
  let alpha_analysis := calculate_alpha bd stock_returns
  let peer_comparison := compare_to_peers peers company_metrics
  let dcf_valuation ← perform_dcf cd bd
  let underperformance_assessment :=
    assess_underperformance alpha_analysis peer_comparison
      (some dcf_valuation.upside) (dlook company_metrics "current_price_to_target")
  return ⟨company_metrics, stock_returns, alpha_analysis, peer_comparison,
    dcf_valuation, underperformance_assessment⟩


/-! ## Scorer decomposition helpers -/

/-- The alpha contribution of step 1, measured from a zero score. -/
def alphaPart (alpha_analysis : List AlphaEntry) : ℤ :=
  match alpha_analysis with
  | [] => 0
  | entry :: _ =>
    if entry.alpha < -(5/100) then 2
    else if entry.alpha < 0 then 1
    else 0


/-- The step-2 contribution of one valuation metric, measured from zero. -/
def valContrib (peer_comparison : Dict Comparison) (metric : String) : ℤ :=
  match dlook peer_comparison metric with
  | none => 0
  | some c =>
    if c.percent_difference < -15 then -1
    else if c.percent_difference > 15 then 1
    else 0


/-- The step-3/4 contribution of one profitability or growth metric. -/
def belowContrib (peer_comparison : Dict Comparison) (metric : String) : ℤ :=
  match dlook peer_comparison metric with
  | none => 0
  | some c => if c.percent_difference < -15 then 1 else 0


/-- The step-5 DCF contribution, measured from zero. -/
def dcfPart (dcf_upside : Option ℚ) : ℤ :=
  match dcf_upside with
  | none => 0
  | some upside =>
    if upside > 15/100 then -2
    else if upside < -(15/100) then 2
    else 0


/-- The step-6 price-to-target contribution, measured from zero. -/
def tgtPart (price_to_target : Option ℚ) : ℤ :=
  match price_to_target with
  | none => 0
  | some p => if p < 8/10 then -1 else 0


/-- Modelled from the amended claim: the per-valuation-metric score
contribution, with strict threshold comparisons. -/
def valContribSpec (pd : ℚ) : ℤ :=
  if pd < -15 then -1 else if 15 < pd then 1 else 0


/-! ## C1 and C8: the peer comparison mapping -/

/-- The comparison record produced for a metric over a peer list. -/
def comparisonOf (peers : List PeerRecord) (cm : Dict ℚ) (metric : String) :
    Comparison :=
  let median := peerMedian (sortedPeerValues peers metric)
  let company_value := dget cm (companyMetricKey metric) 0
  ⟨company_value, median,
    if median ≠ 0 then ((company_value - median) / median) * 100 else 0⟩


/-- Modelled from the claim: the textbook median over an ascending-sorted
value list - the exact middle element for an odd count, the average of the
two middle elements for an even count greater than 1. -/
def medianSpec (values : List ℚ) : ℚ :=
  if values.length % 2 = 1 then values.getD (values.length / 2) 0
  else (values.getD (values.length / 2 - 1) 0 + values.getD (values.length / 2) 0) / 2


lemma companyMetricKey_snake_example : companyMetricKey "pe_ratio" = "peRatio" := by
  decide


lemma companyMetricKey_camel_example : companyMetricKey "peRatio" = "pe_ratio" := by
  decide


example :
    compare_to_peers [⟨[("peRatio", 10)]⟩, ⟨[("peRatio", 30)]⟩, ⟨[("peRatio", 20)]⟩]
      [("pe_ratio", 40)]
    = [("peRatio", ⟨40, 20, 100⟩)] := by
  simp [compare_to_peers, compareEntry, sortedPeerValues, peerMedian, dget, dlook,
    companyMetricKey_camel_example, List.filterMap_cons, List.insertionSort,
    List.orderedInsert]
  norm_num
  simp


example :
    compare_to_peers [⟨[("pe_ratio", 10)]⟩] [("pe_ratio", 5)]
    = [("pe_ratio", ⟨0, 10, -100⟩)] := by
  simp [compare_to_peers, compareEntry, sortedPeerValues, peerMedian, dget, dlook,
    companyMetricKey_snake_example, List.filterMap_cons, List.insertionSort,
    List.orderedInsert]


example : assess_score [⟨some 2024, -(6/100)⟩] [] (some (2/10)) (some (7/10)) = -1 := by
  simp [assess_score, valuation_metrics, profitability_metrics, growth_metrics,
    valuationStep, belowMedianStep, dlook]
  norm_num


example :
    perform_dcf ⟨[{}], {}⟩ {} = .ok ⟨101/1000, [], [], 0, 0, 0, 0, 0, 0⟩ := by
  simp [perform_dcf, waccOf, selectedBase]
  norm_num


lemma valuationStep_eq (pc : Dict Comparison) (s : ℤ) (m : String) :
    valuationStep pc s m = s + valContrib pc m := by
  unfold valuationStep valContrib
  cases dlook pc m with
  | none => simp
  | some c => simp only; split_ifs <;> omega


lemma belowMedianStep_eq (pc : Dict Comparison) (s : ℤ) (m : String) :
    belowMedianStep pc s m = s + belowContrib pc m := by
  unfold belowMedianStep belowContrib
  cases dlook pc m with
  | none => simp
  | some c => simp only; split_ifs <;> omega


/-- The sequentially accumulated score decomposes into the sum of its six
independent contributions. -/
lemma assess_score_eq (alphas : List AlphaEntry) (pc : Dict Comparison)
    (up tgt : Option ℚ) :
    assess_score alphas pc up tgt =
      alphaPart alphas + (valuation_metrics.map (valContrib pc)).sum +
        (profitability_metrics.map (belowContrib pc)).sum +
        (growth_metrics.map (belowContrib pc)).sum + dcfPart up + tgtPart tgt := by
  unfold assess_score alphaPart dcfPart tgtPart
  simp only [List.foldl_cons, valuation_metrics, List.map_cons,
    profitability_metrics, List.sum_cons, growth_metrics, List.foldl_nil,
    List.map_nil, List.sum_nil, valuationStep_eq, belowMedianStep_eq]
  cases alphas <;> cases up <;> cases tgt <;> dsimp only <;> first
  | omega
  | (split_ifs <;> omega)


lemma alphaPart_bounds (alphas : List AlphaEntry) :
    0 ≤ alphaPart alphas ∧ alphaPart alphas ≤ 2 := by
  unfold alphaPart; cases alphas <;> dsimp only <;> first
  | omega
  | (split_ifs <;> omega)


lemma valContrib_bounds (pc : Dict Comparison) (m : String) :
    -1 ≤ valContrib pc m ∧ valContrib pc m ≤ 1 := by
  unfold valContrib; cases dlook pc m <;> dsimp only <;> first
  | omega
  | (split_ifs <;> omega)


lemma belowContrib_bounds (pc : Dict Comparison) (m : String) :
    0 ≤ belowContrib pc m ∧ belowContrib pc m ≤ 1 := by
  unfold belowContrib; cases dlook pc m <;> dsimp only <;> first
  | omega
  | (split_ifs <;> omega)


lemma dcfPart_bounds (up : Option ℚ) : -2 ≤ dcfPart up ∧ dcfPart up ≤ 2 := by
  unfold dcfPart; cases up <;> dsimp only <;> first
  | omega
  | (split_ifs <;> omega)


lemma tgtPart_bounds (tgt : Option ℚ) : -1 ≤ tgtPart tgt ∧ tgtPart tgt ≤ 0 := by
  unfold tgtPart; cases tgt <;> dsimp only <;> first
  | omega
  | (split_ifs <;> omega)


/-- C9: for every combination of inputs the underperformance score lies
between -7 and 12 inclusive. -/
theorem C9_assess_score_bounded (alphas : List AlphaEntry)
    (pc : Dict Comparison) (up tgt : Option ℚ) :
    -7 ≤ assess_score alphas pc up tgt ∧ assess_score alphas pc up tgt ≤ 12 := by
  rw [assess_score_eq]
  simp only [List.sum_cons, List.map_cons, valuation_metrics,
    profitability_metrics, growth_metrics, List.sum_nil, List.map_nil]
  have h1 := valContrib_bounds pc "peRatio"
  have h2 := valContrib_bounds pc "priceToSales"
  have h3 := valContrib_bounds pc "priceToBook"
  have h4 := valContrib_bounds pc "evToEbitda"
  have h5 := belowContrib_bounds pc "returnOnEquity"
  have h6 := belowContrib_bounds pc "returnOnAssets"
  have h7 := belowContrib_bounds pc "netMargin"
  have h8 := belowContrib_bounds pc "revenueGrowth"
  have ha := alphaPart_bounds alphas
  have hd := dcfPart_bounds up
  have ht := tgtPart_bounds tgt
  omega


/-- C4: holding everything else fixed, flipping the DCF upside from +0.20
to -0.20 increases the score by exactly 4. -/
theorem C4_upside_flip (alphas : List AlphaEntry) (pc : Dict Comparison)
    (tgt : Option ℚ) :
    assess_score alphas pc (some (-(2/10))) tgt =
      assess_score alphas pc (some (2/10)) tgt + 4 := by
  rw [assess_score_eq, assess_score_eq]
  have h1 : dcfPart (some (-(2/10))) = 2 := by unfold dcfPart; norm_num
  have h2 : dcfPart (some (2/10)) = -2 := by unfold dcfPart; norm_num
  omega


lemma valContrib_spec (pc : Dict Comparison) (m : String) :
    valContrib pc m =
      ((dlook pc m).map (fun c => valContribSpec c.percent_difference)).getD 0 := by
  unfold valContrib valContribSpec
  cases dlook pc m <;> simp


lemma valContrib_fun_spec (pc : Dict Comparison) :
    valContrib pc =
      fun m => ((dlook pc m).map (fun c => valContribSpec c.percent_difference)).getD 0 :=
  funext (valContrib_spec pc)


/-- C3 counterexample: a percent_difference of exactly -15 (or exactly +15)
on peRatio contributes nothing, where the claim demands -1 (resp. +1). -/
theorem C3_counterexample :
    assess_score [] [("peRatio", ⟨17, 20, -15⟩)] none none = 0 ∧
    assess_score [] [("peRatio", ⟨23, 20, 15⟩)] none none = 0 := by
  constructor <;>
    simp [assess_score, valuation_metrics, profitability_metrics, growth_metrics,
      valuationStep, belowMedianStep, dlook]


/-- C3 (amended): each of the four valuation metrics present in the peer
comparison contributes -1 when its percent_difference is strictly below -15
and +1 when strictly above +15, independently and additively; exactly -15
or +15 contributes nothing. -/
theorem C3_valuation_contributions (alphas : List AlphaEntry)
    (pc : Dict Comparison) (up tgt : Option ℚ) :
    (assess_score alphas pc up tgt =
      alphaPart alphas +
        (valuation_metrics.map
          (fun m => ((dlook pc m).map
            (fun c => valContribSpec c.percent_difference)).getD 0)).sum +
        (profitability_metrics.map (belowContrib pc)).sum +
        (growth_metrics.map (belowContrib pc)).sum + dcfPart up + tgtPart tgt) ∧
    valContribSpec (-15) = 0 ∧ valContribSpec 15 = 0 := by
  refine ⟨?_, by norm_num [valContribSpec], by norm_num [valContribSpec]⟩
  rw [assess_score_eq, valContrib_fun_spec]


/-! ## C10: guarded stock returns -/

/-- C10: whenever the previous year's stock price is not positive, the
return entry for that consecutive pair has price_return, dividend_return
and total_return all equal to 0. -/
theorem C10_returns_guarded (financials : List YearRecord) (i : ℕ)
    (c p : YearRecord) (hc : financials[i]? = some c)
    (hp : financials[i + 1]? = some p) (hprice : p.stock_price.getD 0 ≤ 0) :
    (calculate_stock_returns financials)[i]? = some ⟨c.year, 0, 0, 0⟩ := by
  have hlen : i + 1 < financials.length := by
    have := List.getElem?_eq_some.mp hp
    exact this.1
  unfold calculate_stock_returns
  rw [if_neg (by omega)]
  rw [List.getElem?_map]
  have hz : (financials.zip financials.tail)[i]? = some (c, p) := by
    rw [List.getElem?_zip_eq_some]
    refine ⟨hc, ?_⟩
    cases financials with
    | nil => simp at hlen
    | cons y ys => simpa using hp
  rw [hz]
  have hng : ¬p.stock_price.getD 0 > 0 := not_lt.mpr hprice
  simp [stockReturn, hng]


/-- C10 witness: concrete two-year input with previous stock price 0 and a
positive dividend; all three returns are 0. -/
theorem C10_witness :
    (calculate_stock_returns
        [{ year := some 2024, stock_price := some 50, dividend_per_share := some 3 },
         { year := some 2023, stock_price := some 0, dividend_per_share := some 2 }])[0]?
      = some ⟨some 2024, 0, 0, 0⟩ :=
  C10_returns_guarded _ 0 _ _ rfl rfl (by norm_num)


/-! ## C2: the zeroed DCF result -/

/-- C2 counterexample: with an all-defaults current year (no positive base
cash flow anywhere in the selection chain) and default benchmark data, the
zeroed result carries wacc = 0.101, not 0. -/
theorem C2_counterexample :
    perform_dcf ⟨[{}], {}⟩ {} = .ok ⟨101/1000, [], [], 0, 0, 0, 0, 0, 0⟩ ∧
    (101/1000 : ℚ) ≠ 0 := by
  constructor
  · simp [perform_dcf, waccOf, selectedBase]
    norm_num
  · norm_num


/-- C2 (amended): when the base-cash-flow selection chain is exhausted,
perform_dcf returns (not raises) a result whose every field is 0 except
wacc, which is the computed WACC. -/
theorem C2_zeroed_result (cd : CompanyData) (bd : BenchmarkData)
    (y : YearRecord) (rest : List YearRecord) (hf : cd.financials = y :: rest)
    (hb : selectedBase y ≤ 0) :
    perform_dcf cd bd = .ok ⟨waccOf y bd, [], [], 0, 0, 0, 0, 0, 0⟩ := by
  unfold perform_dcf
  rw [hf]
  simp only [hb, if_pos]


/-- C2 witness: the amended theorem applied at the concrete counterexample
input. -/
theorem C2_witness :
    perform_dcf ⟨[{}], {}⟩ {} =
      .ok ⟨waccOf {} {}, [], [], 0, 0, 0, 0, 0, 0⟩ :=
  C2_zeroed_result ⟨[{}], {}⟩ {} {} [] rfl (by norm_num [selectedBase])


/-! ## C5 and C6: the successful DCF branch -/

/-- In the successful positive-base branch, perform_dcf returns the record
built from the computed WACC and the 5-year projection. -/
lemma perform_dcf_pos (cd : CompanyData) (bd : BenchmarkData) (y : YearRecord)
    (rest : List YearRecord) (r : DCFResult) (hf : cd.financials = y :: rest)
    (hb : 0 < selectedBase y) (hok : perform_dcf cd bd = .ok r) :
    r.projected_cash_flows =
      projectCashFlows (selectedBase y)
        (cd.estimates.long_term_growth_rate.getD (1/10)) ∧
    r.terminal_value =
      (if waccOf y bd > 3/100 then
        (r.projected_cash_flows.getD 4 0 * (1 + 3/100)) / (waccOf y bd - 3/100)
      else r.projected_cash_flows.getD 4 0 * 20) := by
  unfold perform_dcf at hok
  rw [hf] at hok
  dsimp only at hok
  rw [if_neg (not_le.mpr hb)] at hok
  by_cases hw : 1 + waccOf y bd = 0
  · rw [if_pos hw] at hok
    exact absurd hok (by simp)
  · rw [if_neg hw] at hok
    have hr := Except.ok.inj hok
    subst hr
    exact ⟨rfl, rfl⟩


/-- C5: with a positive base cash flow, the terminal value is
cf5 x 1.03 / (WACC - 0.03) when WACC > 3%, and cf5 x 20 when WACC <= 3%. -/
theorem C5_terminal_value (cd : CompanyData) (bd : BenchmarkData)
    (y : YearRecord) (rest : List YearRecord) (r : DCFResult)
    (hf : cd.financials = y :: rest) (hb : 0 < selectedBase y)
    (hok : perform_dcf cd bd = .ok r) :
    (waccOf y bd > 3/100 →
      r.terminal_value =
        r.projected_cash_flows.getD 4 0 * (103/100) / (waccOf y bd - 3/100)) ∧
    (waccOf y bd ≤ 3/100 →
      r.terminal_value = r.projected_cash_flows.getD 4 0 * 20) := by
  obtain ⟨-, htv⟩ := perform_dcf_pos cd bd y rest r hf hb hok
  constructor
  · intro h
    rw [htv, if_pos h]
    norm_num
  · intro h
    rw [htv, if_neg (not_lt.mpr h)]


/-- C5 witness: a concrete company with unit operating cash flow, zero
growth estimate and zero benchmark rates (WACC = 0 <= 3%), for which the
terminal value is 20x the final projected cash flow. -/
theorem C5_witness :
    (waccOf { cashFlow := some 1 } ⟨[], some 0, some 0⟩ > 3/100 →
      (DCFResult.terminal_value ⟨0, [1, 1, 1, 1, 1], [1, 1, 1, 1, 1], 20, 20, 25, 25, 0, 0⟩) =
        ((DCFResult.projected_cash_flows ⟨0, [1, 1, 1, 1, 1], [1, 1, 1, 1, 1], 20, 20, 25, 25, 0, 0⟩).getD 4 0) * (103/100) /
          (waccOf { cashFlow := some 1 } ⟨[], some 0, some 0⟩ - 3/100)) ∧
    (waccOf { cashFlow := some 1 } ⟨[], some 0, some 0⟩ ≤ 3/100 →
      (DCFResult.terminal_value ⟨0, [1, 1, 1, 1, 1], [1, 1, 1, 1, 1], 20, 20, 25, 25, 0, 0⟩) =
        ((DCFResult.projected_cash_flows ⟨0, [1, 1, 1, 1, 1], [1, 1, 1, 1, 1], 20, 20, 25, 25, 0, 0⟩).getD 4 0) * 20) :=
  C5_terminal_value
    ⟨[{ cashFlow := some 1 }], { long_term_growth_rate := some 0 }⟩
    ⟨[], some 0, some 0⟩ { cashFlow := some 1 } [] _ rfl
    (by norm_num [selectedBase])
    (by simp [perform_dcf, waccOf, selectedBase, projectCashFlows, projectFrom]
        norm_num)


/-- C6: with a positive base cash flow B, the k-th projected cash flow
(k = 1..5) equals B times the product over j = 1..k of
(1 + g * (1 - (j-1) * 0.1)); growth compounds on the running cash flow. -/
theorem C6_projection_compounds (cd : CompanyData) (bd : BenchmarkData)
    (y : YearRecord) (rest : List YearRecord) (r : DCFResult) (k : ℕ)
    (hf : cd.financials = y :: rest) (hb : 0 < selectedBase y)
    (hok : perform_dcf cd bd = .ok r) (hk1 : 1 ≤ k) (hk5 : k ≤ 5) :
    r.projected_cash_flows.getD (k - 1) 0 =
      selectedBase y *
        ((List.range k).map
          (fun j => 1 + cd.estimates.long_term_growth_rate.getD (1/10) *
            (1 - (j : ℚ) * (1/10)))).prod := by
  obtain ⟨hp, -⟩ := perform_dcf_pos cd bd y rest r hf hb hok
  rw [hp]
  interval_cases k <;>
    (simp [projectCashFlows, projectFrom, List.range_succ]; try ring)


/-- C6 witness: the theorem applied at year k = 3 of a concrete company
with base cash flow 1, growth estimate 1 and zero benchmark rates. -/
theorem C6_witness :
    (DCFResult.projected_cash_flows
        ⟨0, [2, 19/5, 171/25, 2907/250, 11628/625],
          [2, 19/5, 171/25, 2907/250, 11628/625], 46512/125, 46512/125,
          518711/1250, 518711/1250, 0, 0⟩).getD (3 - 1) 0 =
      selectedBase { cashFlow := some 1 } *
        ((List.range 3).map
          (fun j => 1 + (CompanyData.estimates
              ⟨[{ cashFlow := some 1 }], { long_term_growth_rate := some 1 }⟩).long_term_growth_rate.getD (1/10) *
            (1 - (j : ℚ) * (1/10)))).prod :=
  C6_projection_compounds
    ⟨[{ cashFlow := some 1 }], { long_term_growth_rate := some 1 }⟩
    ⟨[], some 0, some 0⟩ { cashFlow := some 1 } [] _ 3 rfl
    (by norm_num [selectedBase])
    (by simp [perform_dcf, waccOf, selectedBase, projectCashFlows, projectFrom]
        norm_num)
    (by norm_num) (by norm_num)


lemma sortedPeerValues_length (peers : List PeerRecord) (metric : String) :
    (sortedPeerValues peers metric).length = peers.length := by
  unfold sortedPeerValues
  rw [(List.perm_insertionSort _ _).length_eq, List.length_map]


lemma compareEntry_some (peers : List PeerRecord) (cm : Dict ℚ)
    (metric : String) (hp : peers ≠ []) :
    compareEntry peers cm metric = some (metric, comparisonOf peers cm metric) := by
  unfold compareEntry comparisonOf
  rw [if_neg]
  simp only [List.isEmpty_iff]
  intro h
  have := sortedPeerValues_length peers metric
  rw [h] at this
  exact hp (List.length_eq_zero.mp this.symm)


lemma dlook_compare (peers : List PeerRecord) (cm : Dict ℚ)
    (keys : List String) (metric : String) (hp : peers ≠ [])
    (hm : metric ∈ keys) :
    dlook (keys.filterMap (fun m => compareEntry peers cm m)) metric =
      some (comparisonOf peers cm metric) := by
  induction keys with
  | nil => cases hm
  | cons k ks ih =>
    rw [List.filterMap_cons, compareEntry_some peers cm k hp]
    by_cases hk : k = metric
    · subst hk
      simp [dlook]
    · rw [List.mem_cons] at hm
      simp only [dlook, if_neg hk]
      exact ih (hm.resolve_left (fun h => hk h.symm))


lemma compare_to_peers_lookup (first : PeerRecord) (rest : List PeerRecord)
    (cm : Dict ℚ) (metric : String)
    (hm : metric ∈ first.current_metrics.map Prod.fst) :
    dlook (compare_to_peers (first :: rest) cm) metric =
      some (comparisonOf (first :: rest) cm metric) := by
  unfold compare_to_peers
  exact dlook_compare (first :: rest) cm _ metric (by simp) hm


lemma peerMedian_eq_medianSpec (values : List ℚ) :
    peerMedian values = medianSpec values := by
  unfold peerMedian medianSpec
  by_cases h : values.length % 2 = 1
  · rw [if_pos h, h]
    simp
  · have h0 : values.length % 2 = 0 := by omega
    rw [if_neg h, h0]
    by_cases hl : 1 < values.length
    · simp [hl]
    · have hz : values.length = 0 := by omega
      have hnil : values = [] := List.length_eq_zero.mp hz
      subst hnil
      simp


/-- C8: for a non-empty peer list, the reported peer_median of each metric
of the first peer is the textbook median of the ascending-sorted list of
all peers' values (absent values defaulting to 0): the middle element for
an odd count, the average of the two middle elements for an even count. -/
theorem C8_peer_median (first : PeerRecord) (rest : List PeerRecord)
    (cm : Dict ℚ) (metric : String)
    (hm : metric ∈ first.current_metrics.map Prod.fst) :
    ∃ c, dlook (compare_to_peers (first :: rest) cm) metric = some c ∧
      List.Perm (sortedPeerValues (first :: rest) metric)
        ((first :: rest).map (fun peer => dget peer.current_metrics metric 0)) ∧
      List.Sorted (· ≤ ·) (sortedPeerValues (first :: rest) metric) ∧
      c.peer_median = medianSpec (sortedPeerValues (first :: rest) metric) := by
  refine ⟨comparisonOf (first :: rest) cm metric,
    compare_to_peers_lookup first rest cm metric hm, ?_, ?_, ?_⟩
  · exact List.perm_insertionSort _ _
  · exact List.sorted_insertionSort _ _
  · exact peerMedian_eq_medianSpec _


/-- C8 witness: peer value sets 10/20/30 and 10/20/30/40 give medians 20
and 25 on the sorted value lists. -/
theorem C8_witness :
    (∃ c, dlook (compare_to_peers
        [⟨[("peRatio", 30)]⟩, ⟨[("peRatio", 10)]⟩, ⟨[("peRatio", 20)]⟩] []) "peRatio"
        = some c ∧ c.peer_median = 20) ∧
    (∃ c, dlook (compare_to_peers
        [⟨[("peRatio", 30)]⟩, ⟨[("peRatio", 10)]⟩, ⟨[("peRatio", 40)]⟩, ⟨[("peRatio", 20)]⟩] []) "peRatio"
        = some c ∧ c.peer_median = 25) := by
  constructor
  · obtain ⟨c, hc, -, -, hmed⟩ :=
      C8_peer_median ⟨[("peRatio", 30)]⟩ [⟨[("peRatio", 10)]⟩, ⟨[("peRatio", 20)]⟩]
        [] "peRatio" (by simp)
    refine ⟨c, hc, ?_⟩
    rw [hmed]
    simp [medianSpec, sortedPeerValues, dget, dlook, List.insertionSort,
      List.orderedInsert]
    norm_num
  · obtain ⟨c, hc, -, -, hmed⟩ :=
      C8_peer_median ⟨[("peRatio", 30)]⟩
        [⟨[("peRatio", 10)]⟩, ⟨[("peRatio", 40)]⟩, ⟨[("peRatio", 20)]⟩]
        [] "peRatio" (by simp)
    refine ⟨c, hc, ?_⟩
    rw [hmed]
    simp [medianSpec, sortedPeerValues, dget, dlook, List.insertionSort,
      List.orderedInsert]
    norm_num


/-- C1 counterexample: the peer metric key pe_ratio is mapped one-way to
peRatio, so with company_metrics holding pe_ratio = 5 the reported
company_value is the default 0, although a company value exists under the
peer key itself. -/
theorem C1_counterexample :
    compare_to_peers [⟨[("pe_ratio", 10)]⟩] [("pe_ratio", 5)]
      = [("pe_ratio", ⟨0, 10, -100⟩)] ∧
    dget [("pe_ratio", 5)] "pe_ratio" 0 = 5 := by
  constructor
  · simp [compare_to_peers, compareEntry, sortedPeerValues, peerMedian, dget, dlook,
      companyMetricKey_snake_example, List.filterMap_cons, List.insertionSort,
      List.orderedInsert]
  · simp [dget, dlook]


lemma companyMetricKey_snake_all :
    ∀ p ∈ snake_to_camel, companyMetricKey p.1 = p.2 := by decide


lemma companyMetricKey_camel_all :
    ∀ p ∈ snake_to_camel, companyMetricKey p.2 = p.1 := by decide


lemma companyMetricKey_snake (s c : String) (h : (s, c) ∈ snake_to_camel) :
    companyMetricKey s = c :=
  companyMetricKey_snake_all (s, c) h


lemma companyMetricKey_camel (s c : String) (h : (s, c) ∈ snake_to_camel) :
    companyMetricKey c = s :=
  companyMetricKey_camel_all (s, c) h


/-- C1 (amended): the lookup of the company value crosses the nine-pair
table exactly one way - a snake-case peer key is looked up only under its
camelCase partner and a camelCase peer key only under its snake_case
partner, with default 0 when the partner key is absent (even when the peer
key itself names an existing company metric). -/
theorem C1_mapped_lookup (first : PeerRecord) (rest : List PeerRecord)
    (cm : Dict ℚ) (metric s c : String)
    (hm : metric ∈ first.current_metrics.map Prod.fst)
    (hpair : (s, c) ∈ snake_to_camel) :
    (metric = s → ∃ cp, dlook (compare_to_peers (first :: rest) cm) metric = some cp ∧
      cp.company_value = dget cm c 0) ∧
    (metric = c → ∃ cp, dlook (compare_to_peers (first :: rest) cm) metric = some cp ∧
      cp.company_value = dget cm s 0) := by
  constructor
  · intro h
    refine ⟨comparisonOf (first :: rest) cm metric,
      compare_to_peers_lookup first rest cm metric hm, ?_⟩
    show dget cm (companyMetricKey metric) 0 = dget cm c 0
    rw [h, companyMetricKey_snake s c hpair]
  · intro h
    refine ⟨comparisonOf (first :: rest) cm metric,
      compare_to_peers_lookup first rest cm metric hm, ?_⟩
    show dget cm (companyMetricKey metric) 0 = dget cm s 0
    rw [h, companyMetricKey_camel s c hpair]


/-- C1 witness: the amended theorem applied at the snake-case peer key
pe_ratio, showing the company value is read from the camelCase key. -/
theorem C1_witness :
    ∃ cp, dlook (compare_to_peers [⟨[("pe_ratio", 10)]⟩] [("pe_ratio", 5)])
        "pe_ratio" = some cp ∧
      cp.company_value = dget [("pe_ratio", 5)] "peRatio" 0 :=
  (C1_mapped_lookup ⟨[("pe_ratio", 10)]⟩ [] [("pe_ratio", 5)] "pe_ratio"
    "pe_ratio" "peRatio" (by simp) (by simp [snake_to_camel])).1 rfl


/-! ## C7: when run_analysis raises -/

lemma perform_dcf_zero_denominator (cd : CompanyData) (bd : BenchmarkData)
    (y : YearRecord) (rest : List YearRecord) (hf : cd.financials = y :: rest)
    (hb : 0 < selectedBase y) (hw : 1 + waccOf y bd = 0) :
    perform_dcf cd bd = .error .divisionByZero := by
  unfold perform_dcf
  rw [hf]
  dsimp only
  rw [if_neg (not_le.mpr hb), if_pos hw]


lemma perform_dcf_ok_of (cd : CompanyData) (bd : BenchmarkData)
    (y : YearRecord) (rest : List YearRecord) (hf : cd.financials = y :: rest)
    (hnd : ¬(0 < selectedBase y ∧ 1 + waccOf y bd = 0)) :
    ∃ r, perform_dcf cd bd = .ok r := by
  unfold perform_dcf
  rw [hf]
  dsimp only
  by_cases hb : selectedBase y ≤ 0
  · rw [if_pos hb]
    exact ⟨_, rfl⟩
  · rw [if_neg hb]
    have hw : ¬1 + waccOf y bd = 0 := fun h => hnd ⟨lt_of_not_le hb, h⟩
    rw [if_neg hw]
    exact ⟨_, rfl⟩


/-- C7 (amended): run_analysis fails with the data-unavailable error
exactly on an empty financials sequence; with non-empty financials it
returns a full result, except that a positive base cash flow combined with
a WACC of exactly -1 makes the present-value discounting divide by zero,
which surfaces as a division-by-zero error instead. -/
theorem C7_failure_characterization (cd : CompanyData) (bd : BenchmarkData)
    (peers : List PeerRecord) :
    (cd.financials = [] → run_analysis cd bd peers = .error .noFinancials) ∧
    (∀ y rest, cd.financials = y :: rest →
      ¬(0 < selectedBase y ∧ 1 + waccOf y bd = 0) →
      ∃ res, run_analysis cd bd peers = .ok res) ∧
    (∀ y rest, cd.financials = y :: rest →
      0 < selectedBase y → 1 + waccOf y bd = 0 →
      run_analysis cd bd peers = .error .divisionByZero) := by
  refine ⟨fun h => ?_, fun y rest hf hnd => ?_, fun y rest hf hb hw => ?_⟩
  · unfold run_analysis calculate_financial_metrics
    rw [h]
    rfl
  · obtain ⟨r, hr⟩ := perform_dcf_ok_of cd bd y rest hf hnd
    unfold run_analysis calculate_financial_metrics
    rw [hf]
    dsimp only
    rw [hr]
    exact ⟨_, rfl⟩
  · have hr := perform_dcf_zero_denominator cd bd y rest hf hb hw
    unfold run_analysis calculate_financial_metrics
    rw [hf]
    dsimp only
    rw [hr]
    rfl


/-- C7 counterexample: a non-empty financials sequence (operating cash
flow 100) combined with benchmark rates risk_free_rate = -1 and
market_risk_premium = 0 gives WACC = -1, and run_analysis raises a
division-by-zero error rather than returning a result. -/
theorem C7_counterexample :
    run_analysis ⟨[{ cashFlow := some 100 }], {}⟩ ⟨[], some (-1), some 0⟩ [] =
      .error .divisionByZero ∧
    ([{ cashFlow := some 100 }] : List YearRecord) ≠ [] := by
  constructor
  · have hw : 1 + waccOf { cashFlow := some 100 } ⟨[], some (-1), some 0⟩ = 0 := by
      norm_num [waccOf]
    have hb : 0 < selectedBase { cashFlow := some 100 } := by
      norm_num [selectedBase]
    have hr := perform_dcf_zero_denominator ⟨[{ cashFlow := some 100 }], {}⟩
      ⟨[], some (-1), some 0⟩ { cashFlow := some 100 } [] rfl hb hw
    unfold run_analysis calculate_financial_metrics
    dsimp only
    rw [hr]
    rfl
  · simp


/-- C7 witness: the amended theorem applied to an empty financials
sequence (data-unavailable error) and to a benign one-year company
(successful full result). -/
theorem C7_witness :
    run_analysis ⟨[], {}⟩ {} [] = .error .noFinancials ∧
    ∃ res, run_analysis ⟨[{ cashFlow := some 1 }], {}⟩ {} [] = .ok res :=
  ⟨(C7_failure_characterization ⟨[], {}⟩ {} []).1 rfl,
   (C7_failure_characterization ⟨[{ cashFlow := some 1 }], {}⟩ {} []).2.1
     { cashFlow := some 1 } [] rfl
     (by norm_num [selectedBase, waccOf])⟩

